import Mathlib

/-!
Verification development for the identity-resolution and session-lifecycle
core of the kitty-agent SDK.

The definitions below are a shallow embedding of the TypeScript source:

* `isDid`                    — src/handles/index.ts, the DID syntax pattern
* `dohScanAnswers`, `resolveHandleViaDoH` — src/handles/doh.ts
* `resolveHandleViaHttp`     — src/handles/http.ts
* `resolveHandleAnonymously` — src/handles/resolve.ts
* `getServiceEndpoint`, `getPdsEndpoint`, `getDidDocument`, `validateUrl`
                             — src/handles/did-document.ts
* `getDidAndPds`             — src/pds-helpers.ts
* `userProj`, `oauthAuthenticateOrRefresh`, `authenticateIfNecessary`,
  `waitForInitialSession`    — src/oauth.ts / src/oauth-stateful-base.ts

Network I/O (`fetch`, the OAuth session store, browser navigation) is
modelled by an explicit environment of oracles describing the settled
outcome of each external request, and the number of network requests a
function issues is returned alongside its result where a claim speaks
about network activity.  JavaScript promises/exceptions are modelled with
`Except`; the JavaScript `undefined`/presence distinction with `Option`.
-/

namespace KittySpec

instance {ε α : Type} [DecidableEq ε] [DecidableEq α] : DecidableEq (Except ε α) :=
  fun x y =>
    match x, y with
    | .ok a, .ok b => decidable_of_iff (a = b) (by simp)
    | .error a, .error b => decidable_of_iff (a = b) (by simp)
    | .ok _, .error _ => isFalse (by simp)
    | .error _, .ok _ => isFalse (by simp)

/-- JavaScript `String.prototype.startsWith(marker)`. -/
def jsStartsWith (s marker : String) : Bool :=
  marker.data.isPrefixOf s.data

/-- `text.split('\n')[0]`: the prefix of the string before its first
newline (the whole string when it has none). -/
def jsFirstLine (s : String) : String :=
  (s.data.takeWhile (fun c => c ≠ '\n')).asString

/-- A whitespace character as JavaScript `trim` sees it (the ASCII cases;
the exotic Unicode space classes never occur in this codebase's inputs). -/
def isJsWhitespace (c : Char) : Bool :=
  c = ' ' || c = '\t' || c = '\n' || c = '\r' || c = '\x0b' || c = '\x0c'

/-- JavaScript `String.prototype.trim()`. -/
def jsTrim (s : String) : String :=
  (((s.data.dropWhile isJsWhitespace).reverse.dropWhile isJsWhitespace).reverse).asString

/-- JavaScript `String.prototype.split(sep)` for a single-character
separator, on the character list: splits at every occurrence, keeping
empty pieces. -/
def splitOnChar : List Char → Char → List (List Char)
  | [], _ => [[]]
  | c :: rest, sep =>
    match splitOnChar rest sep with
    | [] => [[]]
    | group :: groups =>
      if c = sep then [] :: group :: groups else (c :: group) :: groups

/-- Characters allowed in the DID method segment: `[a-z]`. -/
def isMethodChar (c : Char) : Bool := 'a' ≤ c && c ≤ 'z'

/-- Characters allowed in the method-specific id: `[a-zA-Z0-9._:%-]`. -/
def isIdChar (c : Char) : Bool :=
  c.isAlpha || c.isDigit || c = '.' || c = '_' || c = ':' || c = '%' || c = '-'

/-- Characters allowed as the final method-specific-id character:
`[a-zA-Z0-9._-]` (the id class without `:` and `%`). -/
def isIdLastChar (c : Char) : Bool :=
  c.isAlpha || c.isDigit || c = '.' || c = '_' || c = '-'

/-- src/handles/index.ts `isDid`: anchored match of
`/^did:([a-z]+):([a-zA-Z0-9._:%-]*[a-zA-Z0-9._-])$/`.
The greedy `[a-z]+` group is deterministic because `:` is not in `[a-z]`;
the id group matches exactly the nonempty suffixes of id-characters whose
last character is in the restricted class. -/
def isDid (did : String) : Bool :=
  match did.data with
  | 'd' :: 'i' :: 'd' :: ':' :: rest =>
    let method := rest.takeWhile isMethodChar
    let rest2 := rest.dropWhile isMethodChar
    if method.isEmpty then false
    else
      match rest2 with
      | ':' :: ident =>
        !ident.isEmpty && ident.all isIdChar && isIdLastChar (ident.getLastD ' ')
      | _ => false
  | _ => false

/-- Model of a thrown JavaScript value in this codebase: either a
`new Error(msg)` / `new TypeError(msg)` (we keep only the message), or the
`results` array thrown by `resolveHandleAnonymously` when both settled
strategies rejected (we keep the two rejection reasons in order). -/
inductive JsErr where
  | jsError (msg : String)
  | rejectedResults (httpErr dohErr : JsErr)
deriving DecidableEq, Repr

/-- src/handles/doh.ts lines 34–53: the scan over the extracted TXT answer
strings.  `continue` on an answer without the `did=` marker; on the first
answer carrying it, the source runs an inner `j`-loop over the later
answers looking for a second `did=` entry, but that loop's `break` exits
only the inner loop, so the scan has no effect on the result (kept here as
the unused `_ambiguityScan`); then the payload after the 4-character
marker is returned when it passes `isDid`, and otherwise the outer loop is
exited (falling through to the throw, i.e. `none`). -/
def dohScanAnswers (answers : List String) : Option String :=
  match answers with
  | [] => none
  | answer :: rest =>
    if !(jsStartsWith answer "did=") then
      dohScanAnswers rest
    else
      let _ambiguityScan := rest.any (fun a => jsStartsWith a "did=")
      let did := answer.drop 4
      if isDid did then some did else none

/-- The parsed AT Protocol DID-document shape used by
src/handles/did-document.ts: `id`, optional `service` list; a
`serviceEndpoint` is either a string or a structured record (whose
contents the source never inspects). -/
inductive ServiceEndpointValue where
  | str (s : String)
  | record
deriving DecidableEq, Repr

structure Service where
  id : String
  type : String
  serviceEndpoint : ServiceEndpointValue
deriving DecidableEq, Repr

structure DidDocument where
  id : String
  service : Option (List Service)
deriving DecidableEq, Repr

/-- A usable OAuth session (token internals are never inspected by this
core beyond identity, so only the DID is kept). -/
structure Session where
  did : String
deriving DecidableEq, Repr

/-- The live transport handle: `new KittyAgent({ handler: oauthAgent })`
wrapping the `OAuthUserAgent(session)`. -/
structure KittyAgent where
  session : Session
deriving DecidableEq, Repr

/-- The `{ handle, did, pds, agent }` object handed to the client factory. -/
structure LoginInput where
  handle : String
  did : String
  pds : String
  agent : KittyAgent
deriving DecidableEq, Repr

/-- Oracle view of the network and of the external OAuth collaborators.
Each field is the settled outcome of one kind of external request:

* `http handle` — the `fetch` of `https://<handle>/.well-known/atproto-did`
  (src/handles/http.ts): a thrown network/redirect error, or
  `(response.ok, body text)`;
* `doh handle` — the DoH query of `_atproto.<handle>` (src/handles/doh.ts):
  a thrown error (network failure, non-ok status, wrong content type,
  malformed dns-json), or the list of extracted type-16 TXT answer strings
  that reaches the scan loop;
* `plc did` — the `fetch` of `https://plc.directory/<did>`
  (src/handles/did-document.ts): `(status, parsed body)`;
* `web ident` — the `fetch` of `https://<ident>/.well-known/did.json`:
  `(status, parsed body)`;
* `getSession did` — `getSession(did, { allowStale: false })` from the
  OAuth collaborator: a usable session or a thrown error;
* `navigationWins` — whether, on the interactive-auth path, the browser
  navigation happens before the 100-second watchdog elapses. -/
structure Env (TClient : Type) where
  http : String → Except JsErr (Bool × String)
  doh : String → Except JsErr (List String)
  plc : String → Nat × DidDocument
  web : String → Nat × DidDocument
  getSession : String → Except JsErr Session
  navigationWins : Bool
  createClient : LoginInput → TClient

/-- src/handles/http.ts `resolveHandleViaHttp`: fetch the well-known
document (with `redirect: 'error'`, so redirects surface as thrown
errors, covered by the oracle's `error` case); non-ok response throws
"domain is unreachable"; otherwise the first line of the body, trimmed,
is returned when it passes `isDid`, else "failed to resolve <handle>". -/
def resolveHandleViaHttp {TClient} (env : Env TClient) (handle : String) :
    Except JsErr String :=
  match env.http handle with
  | .error e => .error e
  | .ok (okFlag, body) =>
    if !okFlag then .error (.jsError "domain is unreachable")
    else
      let did := jsTrim (jsFirstLine body)
      if isDid did then .ok did
      else .error (.jsError ("failed to resolve " ++ handle))

/-- src/handles/doh.ts `resolveHandleViaDoH`: the fetch/status/content-type
/dns-json validation and TXT filtering are the oracle's `doh` field (its
`error` case covers every throw before the scan loop); the scan over the
extracted answers is `dohScanAnswers`, and a scan that finds nothing
throws "failed to resolve <handle>". -/
def resolveHandleViaDoH {TClient} (env : Env TClient) (handle : String) :
    Except JsErr String :=
  match env.doh handle with
  | .error e => .error e
  | .ok answers =>
    match dohScanAnswers answers with
    | some did => .ok did
    | none => .error (.jsError ("failed to resolve " ++ handle))

/-- A JavaScript `Map` keyed by strings, modelled as an association list
where insertion shadows earlier entries. -/
def mapLookup {α : Type} (m : List (String × α)) (k : String) : Option α :=
  (m.find? (fun p => p.1 = k)).map (fun p => p.2)

def mapInsert {α : Type} (m : List (String × α)) (k : String) (v : α) :
    List (String × α) :=
  (k, v) :: m

/-- The identity tuple cached by src/pds-helpers.ts: `{ did, pds,
didDocument }`. -/
structure Resolved where
  did : String
  pds : String
  didDocument : DidDocument
deriving DecidableEq, Repr

/-- The two module-level caches: `didCache` of src/handles/resolve.ts and
`didPdsCache` of src/pds-helpers.ts. -/
structure ResolveState where
  didCache : List (String × String)
  didPdsCache : List (String × Resolved)
deriving DecidableEq, Repr

/-- src/handles/resolve.ts `resolveHandleAnonymously`: DID inputs pass
through untouched with no network call; then the `didCache` is consulted;
otherwise both strategies run to completion under `Promise.allSettled`
(two network requests), the first fulfilled entry of the array
`[http, doh]` wins and is cached under the original input string, and if
both rejected the settled-results array itself is thrown.  Returns
(outcome, updated caches, number of network requests issued). -/
def resolveHandleAnonymously {TClient} (env : Env TClient)
    (st : ResolveState) (handle : String) :
    Except JsErr String × ResolveState × Nat :=
  if isDid handle then (.ok handle, st, 0)
  else
    match mapLookup st.didCache handle with
    | some did => (.ok did, st, 0)
    | none =>
      match resolveHandleViaHttp env handle, resolveHandleViaDoH env handle with
      | .ok did, _ =>
        (.ok did, { st with didCache := mapInsert st.didCache handle did }, 2)
      | .error _, .ok did =>
        (.ok did, { st with didCache := mapInsert st.didCache handle did }, 2)
      | .error e1, .error e2 =>
        (.error (.rejectedResults e1 e2), st, 2)

/-- The two URL record fields `validateUrl` inspects: `protocol` (scheme
with its trailing `:`, lowercased) and `hostname`. -/
structure URLParts where
  protocol : String
  hostname : String
deriving DecidableEq, Repr

def isSchemeStartChar (c : Char) : Bool := c.isAlpha

def isSchemeChar (c : Char) : Bool :=
  c.isAlpha || c.isDigit || c = '+' || c = '-' || c = '.'

/-- WHATWG special schemes (authority parsed even without `//`). -/
def isSpecialScheme (s : String) : Bool :=
  s = "http" || s = "https" || s = "ws" || s = "wss" || s = "ftp" || s = "file"

/-- The hostname inside an authority component: drop userinfo (everything
up to the last `@`) and the port (everything from the first `:` after
that). IPv6 bracket syntax is not modelled (never produced by this
codebase's inputs). -/
def hostOfAuthority (authority : List Char) : List Char :=
  let afterUser :=
    if authority.contains '@' then
      (authority.reverse.takeWhile (fun c => c ≠ '@')).reverse
    else authority
  afterUser.takeWhile (fun c => c ≠ ':')

/-- Model of the WHATWG `new URL(input)` constructor (no base argument),
restricted to the two fields `validateUrl` reads.  An absolute URL must
start with `scheme ':'` where scheme is `[A-Za-z][A-Za-z0-9+.-]*`
(otherwise the constructor throws, modelled as `none`; leading/trailing
whitespace is stripped first).  For a special scheme (http, https, ws,
wss, ftp, file) any run of slashes after the colon is skipped and the
authority extends to the next `/`, `?`, `#` or `\`; a special scheme
other than `file` with an empty host makes the constructor throw.  For a
non-special scheme an authority is parsed only after a literal `//`, and
an absent authority yields an empty hostname (opaque path). -/
def parseURL (input : String) : Option URLParts :=
  let cs := (jsTrim input).data
  let scheme := cs.takeWhile isSchemeChar
  let rest := cs.dropWhile isSchemeChar
  match scheme.headD ' ', rest with
  | c, ':' :: afterColon =>
    if !isSchemeStartChar c then none
    else
      let schemeLower := (scheme.map Char.toLower).asString
      if isSpecialScheme schemeLower then
        let afterSlashes := afterColon.dropWhile (fun ch => ch = '/' || ch = '\\')
        let authority := afterSlashes.takeWhile
          (fun ch => ch ≠ '/' && ch ≠ '?' && ch ≠ '#' && ch ≠ '\\')
        let host := hostOfAuthority authority
        if host.isEmpty && schemeLower ≠ "file" then none
        else some ⟨schemeLower ++ ":", host.asString⟩
      else
        match afterColon with
        | '/' :: '/' :: afterSlashes =>
          let authority := afterSlashes.takeWhile
            (fun ch => ch ≠ '/' && ch ≠ '?' && ch ≠ '#')
          some ⟨schemeLower ++ ":", (hostOfAuthority authority).asString⟩
        | _ => some ⟨schemeLower ++ ":", ""⟩
  | _, _ => none

/-- src/handles/did-document.ts `validateUrl`: try `new URL(urlStr)` (a
throw yields `undefined`); return the original string exactly when the
protocol is `http:` or `https:` and the hostname is non-empty, and
`undefined` (the implicit fall-through) otherwise. -/
def validateUrl (urlStr : String) : Option String :=
  match parseURL urlStr with
  | none => none
  | some url =>
    if url.hostname ≠ "" && (url.protocol = "http:" || url.protocol = "https:")
    then some urlStr
    else none

/-- src/handles/did-document.ts `getServiceEndpoint`: find the first
service entry whose `id` equals the bare fragment or `<doc.id><fragment>`
(the source binds `did = doc.id` and `didServiceId = did + serviceId`,
inlined here); return `undefined` when there is none, or its type differs
from the expected one, or its endpoint is not a string; otherwise validate
the endpoint string as an http(s) URL. -/
def getServiceEndpoint (doc : DidDocument) (serviceId : String)
    (serviceType : String) : Option String :=
  match (doc.service.getD []).find?
      (fun service => service.id = serviceId || service.id = doc.id ++ serviceId) with
  | none => none
  | some f =>
    if f.type ≠ serviceType then none
    else
      match f.serviceEndpoint with
      | .record => none
      | .str endpointStr => validateUrl endpointStr

/-- src/handles/did-document.ts `getPdsEndpoint`. -/
def getPdsEndpoint (doc : DidDocument) : Option String :=
  getServiceEndpoint doc "#atproto_pds" "AtprotoPersonalDataServer"

/-- JavaScript `String.prototype.indexOf(char, fromIndex)`: the position of
the first occurrence at index ≥ `start`, else `-1`. -/
def jsIndexOfFrom (s : String) (c : Char) (start : Nat) : Int :=
  match (s.data.drop start).findIdx? (fun ch => ch = c) with
  | some i => (start + i : Nat)
  | none => -1

/-- JavaScript `String.prototype.slice(a, b)`: negative indices count from
the end, indices clamp to `[0, length]`, and an empty string results when
the normalized start is not below the normalized end. -/
def jsSlice (s : String) (a b : Int) : String :=
  let len := s.length
  let norm (i : Int) : Nat :=
    if i < 0 then ((len : Int) + i).toNat else min i.toNat len
  ((s.data.drop (norm a)).take (norm b - norm a)).asString

/-- JavaScript `String.prototype.slice(a)` (end defaults to the length). -/
def jsSliceFrom (s : String) (a : Int) : String := jsSlice s a s.length

/-- src/handles/did-document.ts `getDidDocument` lines 93–96: `colon_index
= did.indexOf(':', 4)`, `type = did.slice(4, colon_index)`, `ident =
did.slice(colon_index + 1)`. -/
def didMethodAndIdent (did : String) : String × String :=
  let colonIndex := jsIndexOfFrom did ':' 4
  (jsSlice did 4 colonIndex, jsSliceFrom did (colonIndex + 1))

/-- A character of a `did:web` domain label: `[a-zA-Z0-9-]`. -/
def isLabelChar (c : Char) : Bool := c.isAlpha || c.isDigit || c = '-'

/-- The anchored regex `DID_WEB_RE =
`/^([a-zA-Z0-9-]+(?:\.[a-zA-Z0-9-]+)*(?:\.[a-zA-Z]{2,}))$/` of
src/handles/did-document.ts.  With backtracking it matches exactly the
strings that split on `.` into at least two nonempty labels of
`[a-zA-Z0-9-]` characters whose final label is purely alphabetic with
length at least 2. -/
def didWebIdentOk (ident : String) : Bool :=
  let labels := splitOnChar ident.data '.'
  decide (2 ≤ labels.length) &&
  labels.all (fun l => !l.isEmpty && l.all isLabelChar) &&
  (let last := labels.getLastD [];
    decide (2 ≤ last.length) && last.all Char.isAlpha)

/-- `response.ok`: status in the inclusive range 200–299. -/
def responseOk (status : Nat) : Bool := 200 ≤ status && status ≤ 299

/-- src/handles/did-document.ts `getDidDocument`: parse the method tag and
method-specific id out of the DID; `plc` fetches the fixed directory,
mapping 404 to "did not found in directory" and any other non-2xx to
"directory is unreachable"; `web` requires the id to match the domain
regex ("invalid identifier" with no network call otherwise) and then
fetches the well-known document, mapping non-2xx to "did document is
unreachable"; every other tag is "unsupported did method" with no network
call.  The second component counts the network requests issued. -/
def getDidDocument {TClient} (env : Env TClient) (did : String) :
    Except JsErr DidDocument × Nat :=
  let ty := (didMethodAndIdent did).1
  let ident := (didMethodAndIdent did).2
  if ty = "plc" then
    if (env.plc did).1 = 404 then
      (.error (.jsError "did not found in directory"), 1)
    else if !responseOk (env.plc did).1 then
      (.error (.jsError "directory is unreachable"), 1)
    else (.ok (env.plc did).2, 1)
  else if ty = "web" then
    if !didWebIdentOk ident then (.error (.jsError "invalid identifier"), 0)
    else if !responseOk (env.web ident).1 then
      (.error (.jsError "did document is unreachable"), 1)
    else (.ok (env.web ident).2, 1)
  else (.error (.jsError "unsupported did method"), 0)

/-- src/pds-helpers.ts `getDidAndPds`: consult the `didPdsCache`; on a miss
resolve the DID, fetch its document, derive the PDS endpoint — throwing
"No PDS for <key> (<did>)!" when none is derivable, in which case nothing
is stored in `didPdsCache` — and cache the tuple under the original key
before returning it.  Returns (outcome, updated caches, number of network
requests issued). -/
def getDidAndPds {TClient} (env : Env TClient) (st : ResolveState)
    (handleOrDid : String) : Except JsErr Resolved × ResolveState × Nat :=
  match mapLookup st.didPdsCache handleOrDid with
  | some r => (.ok r, st, 0)
  | none =>
    match resolveHandleAnonymously env st handleOrDid with
    | (.error e, st1, n1) => (.error e, st1, n1)
    | (.ok did, st1, n1) =>
      match getDidDocument env did with
      | (.error e, n2) => (.error e, st1, n1 + n2)
      | (.ok didDocument, n2) =>
        match getPdsEndpoint didDocument with
        | none =>
          (.error (.jsError ("No PDS for " ++ handleOrDid ++ " (" ++ did ++ ")!")),
            st1, n1 + n2)
        | some pds =>
          (.ok ⟨did, pds, didDocument⟩,
            { st1 with didPdsCache :=
                mapInsert st1.didPdsCache handleOrDid ⟨did, pds, didDocument⟩ },
            n1 + n2)

/-- The persisted account record `{ handle, did, pds }` of src/oauth.ts /
src/oauth-stateful-base.ts. -/
structure Account where
  handle : String
  did : String
  pds : String
deriving DecidableEq, Repr

/-- The composed login state `LoginStateImpl` (src/oauth.ts): the account
plus the live agent and the application client; `handle`/`did`/`pds` are
projections of the account. -/
structure LoginState (TClient : Type) where
  account : Account
  agent : KittyAgent
  client : TClient
deriving DecidableEq, Repr

def LoginState.handle {TClient} (l : LoginState TClient) : String := l.account.handle
def LoginState.did {TClient} (l : LoginState TClient) : String := l.account.did
def LoginState.pds {TClient} (l : LoginState TClient) : String := l.account.pds

/-- The derived `user` store of `StatefulOAuthClient` (src/oauth.ts lines
229–231): `account && agent && client ? new LoginStateImpl(account, agent,
client) : undefined`.  `Account` and `KittyAgent` slot values are always
objects (truthy), so presence coincides with JavaScript truthiness here. -/
def userProj {TClient : Type} (account : Option Account)
    (agent : Option KittyAgent) (client : Option TClient) :
    Option (LoginState TClient) :=
  match account, agent, client with
  | some a, some g, some c => some ⟨a, g, c⟩
  | _, _, _ => none

/-- The mutable state owned by a `StatefulOAuthClient`: the two resolution
caches plus the three store slots.  `storedUser` is the durable-storage
view of the `user` key, kept in sync by the store subscription that
re-serializes the account on every set (`none` is stored as the literal
string `null`). -/
structure ClientState (TClient : Type) where
  resolve : ResolveState
  account : Option Account
  agent : Option KittyAgent
  client : Option TClient
  storedUser : Option Account
deriving DecidableEq, Repr

/-- `this.user.get()` recomputed from the three slots. -/
def userOf {TClient} (st : ClientState TClient) : Option (LoginState TClient) :=
  userProj st.account st.agent st.client

/-- Setting the account slot: replaces the value and synchronously
re-serializes it to the durable `user` key. -/
def setAccount {TClient} (st : ClientState TClient) (v : Option Account) :
    ClientState TClient :=
  { st with account := v, storedUser := v }

/-- The ways `authenticateIfNecessary` can end: a normal return of a
boolean, a thrown error, or the interactive-auth browser navigation (after
which no continuation of this process runs). -/
inductive Outcome where
  | returned (b : Bool)
  | threw (e : JsErr)
  | navigated
deriving DecidableEq, Repr

/-- The guard of `authenticateIfNecessary`'s short-circuit:
`this.user.get() && account && account.handle === handle`. -/
def shortCircuitGuard {TClient} (st : ClientState TClient) (handle : String) : Bool :=
  (userOf st).isSome &&
    (match st.account with
     | some a => a.handle = handle
     | none => false)

/-- `oauthAuthenticateOrRefresh` (src/oauth.ts lines 49–75): try
`getSession(await resolveHandleAnonymously(handle), { allowStale: false })`,
catching any throw (of the resolution or of `getSession`) as "no session";
with `refreshOnly` and no session return `undefined`; with no session
otherwise, enter `oauthAuthenticate`, which never returns normally — the
browser either navigates away or, once the 100-second watchdog elapses,
"Unreachable code" is thrown; with a session, wrap it in an
`OAuthUserAgent`.  Returns (outcome, updated caches): the `Option
KittyAgent` in the outcome's `ok` is the `undefined`/agent return value. -/
inductive RefreshOutcome where
  | ok (agent : Option KittyAgent)
  | navigated
  | threw (e : JsErr)
deriving DecidableEq, Repr

def oauthAuthenticateOrRefresh {TClient} (env : Env TClient)
    (st : ResolveState) (handle : String) (refreshOnly : Bool) :
    RefreshOutcome × ResolveState :=
  let (resolveRes, st1, _) := resolveHandleAnonymously env st handle
  let session : Option Session :=
    match resolveRes with
    | .error _ => none
    | .ok did =>
      match env.getSession did with
      | .error _ => none
      | .ok s => some s
  match session with
  | none =>
    if refreshOnly then (.ok none, st1)
    else if env.navigationWins then (.navigated, st1)
    else (.threw (.jsError "Unreachable code"), st1)
  | some s => (.ok (some (KittyAgent.mk s)), st1)

/-- `authenticateIfNecessary` (src/oauth.ts lines 258–281 and
src/oauth-stateful-base.ts lines 55–78): short-circuit `true` when the
user is defined for the requested handle; otherwise resolve `{ did, pds }`
(errors propagate), write the provisional account `{ did, pds, handle }`
into the store (and hence durable storage), then refresh or authenticate;
`undefined` from the refresh becomes `false`, and a session becomes the
agent and client slot writes followed by `true`. -/
def authenticateIfNecessary {TClient} (env : Env TClient)
    (st : ClientState TClient) (handle : String) (refreshOnly : Bool) :
    Outcome × ClientState TClient :=
  if shortCircuitGuard st handle then (.returned true, st)
  else
    match getDidAndPds env st.resolve handle with
    | (.error e, rs, _) => (.threw e, { st with resolve := rs })
    | (.ok r, rs, _) =>
      let st1 := setAccount { st with resolve := rs }
        (some ⟨handle, r.did, r.pds⟩)
      match oauthAuthenticateOrRefresh env st1.resolve handle refreshOnly with
      | (.navigated, rs2) => (.navigated, { st1 with resolve := rs2 })
      | (.threw e, rs2) => (.threw e, { st1 with resolve := rs2 })
      | (.ok none, rs2) => (.returned false, { st1 with resolve := rs2 })
      | (.ok (some agent), rs2) =>
        let st2 := { st1 with resolve := rs2, agent := some agent }
        let st3 := { st2 with client := some (env.createClient
          ⟨handle, r.did, r.pds, agent⟩) }
        (.returned true, st3)

/-- The body of `waitForInitialSession` (src/oauth.ts lines 283–297) on
its first invocation (later calls await the same memoized promise): when a
persisted account exists, run refresh-only `authenticateIfNecessary` for
its handle with no surrounding catch, so a throw from it rejects the
promise; a normal return (of either boolean) resolves it. -/
def waitForInitialSession {TClient} (env : Env TClient)
    (st : ClientState TClient) : Except JsErr Unit × ClientState TClient :=
  match st.account with
  | none => (.ok (), st)
  | some account =>
    match authenticateIfNecessary env st account.handle true with
    | (.returned _, st1) => (.ok (), st1)
    | (.threw e, st1) => (.error e, st1)
    | (.navigated, st1) => (.ok (), st1)

/-! ### Helper environments and lemmas -/

/-- An environment in which every external request fails; concrete
scenarios override individual oracles. -/
def baseEnv : Env Unit where
  http := fun _ => .error (.jsError "http down")
  doh := fun _ => .error (.jsError "doh down")
  plc := fun _ => (500, ⟨"", none⟩)
  web := fun _ => (500, ⟨"", none⟩)
  getSession := fun _ => .error (.jsError "no stored session")
  navigationWins := false
  createClient := fun _ => ()

theorem mapLookup_insert {α : Type} (m : List (String × α)) (k : String) (v : α) :
    mapLookup (mapInsert m k v) k = some v := by
  simp [mapLookup, mapInsert, List.find?]

/-- `resolveHandleAnonymously` never touches the `didPdsCache`. -/
theorem resolve_preserves_pdsCache {TClient} (env : Env TClient)
    (st : ResolveState) (handle : String) :
    (resolveHandleAnonymously env st handle).2.1.didPdsCache = st.didPdsCache := by
  unfold resolveHandleAnonymously
  split
  · rfl
  · split
    · rfl
    · split <;> rfl

/-- A successful `getDidAndPds` leaves its result in the `didPdsCache`
under the lookup key. -/
theorem getDidAndPds_ok_lookup {TClient} (env : Env TClient)
    (st : ResolveState) (key : String) (r : Resolved) (st1 : ResolveState)
    (n : Nat) (h : getDidAndPds env st key = (.ok r, st1, n)) :
    mapLookup st1.didPdsCache key = some r := by
  unfold getDidAndPds at h
  split at h
  · rename_i r0 heq
    simp only [Prod.mk.injEq, Except.ok.injEq] at h
    obtain ⟨rfl, rfl, -⟩ := h
    exact heq
  · rename_i heq
    split at h
    · simp at h
    · rename_i did st1' n1 hres
      split at h
      · simp at h
      · rename_i doc n2 hdoc
        split at h
        · simp at h
        · rename_i pds hpds
          simp only [Prod.mk.injEq, Except.ok.injEq] at h
          obtain ⟨rfl, rfl, -⟩ := h
          exact mapLookup_insert _ _ _

/-- A `didPdsCache` hit returns the cached tuple with no network call and
no state change. -/
theorem getDidAndPds_cached {TClient} (env : Env TClient)
    (st : ResolveState) (key : String) (r : Resolved)
    (h : mapLookup st.didPdsCache key = some r) :
    getDidAndPds env st key = (.ok r, st, 0) := by
  unfold getDidAndPds
  rw [h]

/-! ### The claims -/

/-- C1 (code_bug evidence): on the DoH answer list
`["did=did:plc:abc", "v=spf1 ...", "did=did:plc:xyz"]` — which contains a
second `did=`-prefixed record after the first — the DoH strategy does NOT
reject the lookup as ambiguous: the scan returns the first candidate and
`resolveHandleViaDoH` resolves to `did:plc:abc`.  The source's own comment
("ensure there is no other entry starting with did=") states the intended
disambiguation, but the inner loop's `break` exits only the inner loop,
so the scan's outcome is discarded and first-match wins unconditionally. -/
theorem C1_doh_ambiguous_answers_still_resolve :
    dohScanAnswers ["did=did:plc:abc", "v=spf1 ...", "did=did:plc:xyz"]
      = some "did:plc:abc" ∧
    resolveHandleViaDoH
      { baseEnv with
        doh := fun _ => .ok ["did=did:plc:abc", "v=spf1 ...", "did=did:plc:xyz"] }
      "bob.example.com" = .ok "did:plc:abc" :=
  ⟨by decide, by decide⟩

/-- C3: the derived `user` store is defined exactly when the `account`,
`agent` and `client` slots are all defined (the single defined combination
of the 8), and an `undefined` in any one slot makes it `undefined`. -/
theorem C3_user_projection_law {TClient : Type} (a : Option Account)
    (g : Option KittyAgent) (c : Option TClient) :
    ((userProj a g c).isSome ↔ (a.isSome ∧ g.isSome ∧ c.isSome)) ∧
    userProj (none : Option Account) g c = none ∧
    userProj a none c = none ∧
    userProj a g (none : Option TClient) = none := by
  refine ⟨?_, ?_, ?_, ?_⟩ <;> cases a <;> cases g <;> cases c <;> simp [userProj]

/-- C4: an input already matching the DID pattern is returned unchanged by
`resolveHandleAnonymously`, with zero network calls and no cache change. -/
theorem C4_did_passthrough {TClient} (env : Env TClient) (st : ResolveState)
    (handle : String) (h : isDid handle = true) :
    resolveHandleAnonymously env st handle = (.ok handle, st, 0) := by
  unfold resolveHandleAnonymously
  rw [h]
  simp

theorem C4_did_passthrough_witness :
    isDid "did:plc:abc123" = true ∧
    resolveHandleAnonymously baseEnv ⟨[], []⟩ "did:plc:abc123"
      = (.ok "did:plc:abc123", ⟨[], []⟩, 0) :=
  ⟨by decide, C4_did_passthrough baseEnv ⟨[], []⟩ "did:plc:abc123" (by decide)⟩

/-- C5: identity-resolution cache idempotence.  After a successful
`getDidAndPds` call for a key, calling it again with the same key issues
zero network calls and returns the identical tuple and state: all network
activity happens in the first call only. -/
theorem C5_cache_idempotence {TClient} (env : Env TClient)
    (st : ResolveState) (key : String) (r : Resolved) (st1 : ResolveState)
    (n : Nat) (h : getDidAndPds env st key = (.ok r, st1, n)) :
    getDidAndPds env st1 key = (.ok r, st1, 0) :=
  getDidAndPds_cached env st1 key r (getDidAndPds_ok_lookup env st key r st1 n h)

/-- A DID document owning a PDS service entry, and a happy-path
environment in which the HTTP strategy resolves `alice.test` and the plc
directory serves that document. -/
def docHappy : DidDocument :=
  ⟨"did:plc:alice", some [⟨"#atproto_pds", "AtprotoPersonalDataServer",
    .str "https://pds.example.com"⟩]⟩

def happyEnv : Env Unit :=
  { baseEnv with
    http := fun _ => .ok (true, "did:plc:alice")
    plc := fun _ => (200, docHappy) }

def resolvedHappy : Resolved := ⟨"did:plc:alice", "https://pds.example.com", docHappy⟩

def stHappy : ResolveState :=
  ⟨[("alice.test", "did:plc:alice")], [("alice.test", resolvedHappy)]⟩

theorem C5_cache_idempotence_witness :
    getDidAndPds happyEnv ⟨[], []⟩ "alice.test" = (.ok resolvedHappy, stHappy, 3) ∧
    getDidAndPds happyEnv stHappy "alice.test" = (.ok resolvedHappy, stHappy, 0) :=
  ⟨by decide,
    C5_cache_idempotence happyEnv ⟨[], []⟩ "alice.test" resolvedHappy stHappy 3
      (by decide)⟩

/-- C6: when resolution and document fetch succeed but the document yields
no usable hosting endpoint, `getDidAndPds` throws the descriptive
"No PDS for <key> (<did>)!" error and stores nothing in the
`didPdsCache`. -/
theorem C6_no_pds_hard_failure {TClient} (env : Env TClient)
    (st : ResolveState) (key did : String) (doc : DidDocument)
    (st1 : ResolveState) (n1 n2 : Nat)
    (hmiss : mapLookup st.didPdsCache key = none)
    (hres : resolveHandleAnonymously env st key = (.ok did, st1, n1))
    (hdoc : getDidDocument env did = (.ok doc, n2))
    (hpds : getPdsEndpoint doc = none) :
    getDidAndPds env st key
      = (.error (.jsError ("No PDS for " ++ key ++ " (" ++ did ++ ")!")),
          st1, n1 + n2) ∧
    st1.didPdsCache = st.didPdsCache := by
  constructor
  · unfold getDidAndPds
    rw [hmiss, hres]
    simp [hdoc, hpds]
  · have h := resolve_preserves_pdsCache env st key
    rw [hres] at h
    exact h

/-- A document with no service entries, and an environment serving it. -/
def docNoPds : DidDocument := ⟨"did:plc:alice", some []⟩

def noPdsEnv : Env Unit :=
  { baseEnv with
    http := fun _ => .ok (true, "did:plc:alice")
    plc := fun _ => (200, docNoPds) }

theorem C6_no_pds_hard_failure_witness :
    mapLookup (ResolveState.mk [] []).didPdsCache "alice.test" = none ∧
    resolveHandleAnonymously noPdsEnv ⟨[], []⟩ "alice.test"
      = (.ok "did:plc:alice", ⟨[("alice.test", "did:plc:alice")], []⟩, 2) ∧
    getDidDocument noPdsEnv "did:plc:alice" = (.ok docNoPds, 1) ∧
    getPdsEndpoint docNoPds = none ∧
    (getDidAndPds noPdsEnv ⟨[], []⟩ "alice.test"
      = (.error (.jsError "No PDS for alice.test (did:plc:alice)!"),
          ⟨[("alice.test", "did:plc:alice")], []⟩, 3) ∧
      (ResolveState.mk [("alice.test", "did:plc:alice")] []).didPdsCache
        = (ResolveState.mk [] []).didPdsCache) :=
  ⟨by decide, by decide, by decide, by decide,
    by
      have h := C6_no_pds_hard_failure noPdsEnv ⟨[], []⟩ "alice.test"
        "did:plc:alice" docNoPds ⟨[("alice.test", "did:plc:alice")], []⟩ 2 1
        (by decide) (by decide) (by decide) (by decide)
      exact h⟩

/-- C9: `resolveHandleAnonymously` joins both strategies with
`Promise.allSettled` (both network requests are issued) and then picks the
first fulfilled entry of the fixed array `[http, doh]`: when both succeed
the HTTP strategy's DID is returned — whatever DID the DoH strategy
produced — and the choice depends only on the settled results. -/
theorem C9_http_result_preferred {TClient} (env : Env TClient)
    (st : ResolveState) (handle d1 d2 : String)
    (hno : isDid handle = false)
    (hmiss : mapLookup st.didCache handle = none)
    (hhttp : resolveHandleViaHttp env handle = .ok d1)
    (hdoh : resolveHandleViaDoH env handle = .ok d2) :
    resolveHandleAnonymously env st handle
      = (.ok d1, { st with didCache := mapInsert st.didCache handle d1 }, 2) := by
  unfold resolveHandleAnonymously
  rw [hno, hmiss, hhttp]
  simp

/-- Both strategies succeed with different DIDs; the HTTP one wins. -/
def bothOkEnv : Env Unit :=
  { baseEnv with
    http := fun _ => .ok (true, "did:plc:http1")
    doh := fun _ => .ok ["did=did:plc:doh2"] }

theorem C9_http_result_preferred_witness :
    isDid "alice.test" = false ∧
    mapLookup ([] : List (String × String)) "alice.test" = none ∧
    resolveHandleViaHttp bothOkEnv "alice.test" = .ok "did:plc:http1" ∧
    resolveHandleViaDoH bothOkEnv "alice.test" = .ok "did:plc:doh2" ∧
    "did:plc:http1" ≠ "did:plc:doh2" ∧
    resolveHandleAnonymously bothOkEnv ⟨[], []⟩ "alice.test"
      = (.ok "did:plc:http1", ⟨[("alice.test", "did:plc:http1")], []⟩, 2) :=
  ⟨by decide, by decide, by decide, by decide, by decide,
    C9_http_result_preferred bothOkEnv ⟨[], []⟩ "alice.test"
      "did:plc:http1" "did:plc:doh2" (by decide) (by decide) (by decide) (by decide)⟩

/-- `validateUrl` only ever returns its own input. -/
theorem validateUrl_eq_self (s v : String) (h : validateUrl s = some v) : v = s := by
  unfold validateUrl at h
  split at h
  · simp at h
  · split at h
    · simp at h
      exact h.symm
    · simp at h

/-- C7 (amended): `getServiceEndpoint` returns an endpoint string exactly
when the FIRST service entry whose id matches the bare fragment or
`<document id><fragment>` also has the expected type and a string
endpoint that validates as an absolute http(s) URL with non-empty host —
and then it returns that entry's exact string.  In every other case
(no id match, wrong type on the first id-match, structured endpoint,
non-http(s) scheme, unparsable URL) the result is `none`; the function is
total, so it never throws. -/
theorem C7_service_endpoint_characterization (doc : DidDocument)
    (serviceId serviceType e : String) :
    getServiceEndpoint doc serviceId serviceType = some e ↔
      ∃ f, (doc.service.getD []).find?
          (fun service => service.id = serviceId || service.id = doc.id ++ serviceId)
            = some f ∧
        f.type = serviceType ∧
        f.serviceEndpoint = .str e ∧
        validateUrl e = some e := by
  unfold getServiceEndpoint
  constructor
  · intro h
    split at h
    · exact absurd h (by simp)
    · rename_i f hf
      split at h
      · exact absurd h (by simp)
      · rename_i htype
        split at h
        · exact absurd h (by simp)
        · rename_i endpointStr hep
          have he : e = endpointStr := validateUrl_eq_self _ _ h
          subst he
          exact ⟨f, hf, not_not.mp htype, hep, h⟩
  · rintro ⟨f, hf, htype, hep, hurl⟩
    rw [hf]
    simp [htype, hep, hurl]

/-- A document whose first `#atproto_pds`-id entry has the wrong type
while a later entry with the same id satisfies every condition. -/
def docDup : DidDocument :=
  ⟨"did:web:alice.example", some
    [⟨"#atproto_pds", "SomeOtherService", .str "https://good.example.com"⟩,
     ⟨"#atproto_pds", "AtprotoPersonalDataServer", .str "https://good.example.com"⟩]⟩

/-- C7 counterexample to the claim as stated: in `docDup` SOME service
entry has a matching id, the expected type, and a string endpoint that
validates as an https URL, yet `getServiceEndpoint` returns `none`,
because only the first id-matching entry is ever inspected. -/
theorem C7_some_entry_counterexample :
    (∃ f, f ∈ docDup.service.getD [] ∧
      (f.id = "#atproto_pds" ∨ f.id = docDup.id ++ "#atproto_pds") ∧
      f.type = "AtprotoPersonalDataServer" ∧
      f.serviceEndpoint = .str "https://good.example.com" ∧
      validateUrl "https://good.example.com" = some "https://good.example.com") ∧
    getServiceEndpoint docDup "#atproto_pds" "AtprotoPersonalDataServer" = none :=
  ⟨⟨⟨"#atproto_pds", "AtprotoPersonalDataServer", .str "https://good.example.com"⟩,
    by decide, by decide, by decide, by decide, by decide⟩, by decide⟩

/-- C8: the four failure classifications of `getDidDocument`.  A `plc` DID
with a 404 directory response fails as "did not found in directory" (a
kind distinct from "directory is unreachable", which any other non-2xx
produces); a `web` DID whose method-specific id fails the domain-name
pattern fails as "invalid identifier" with zero network calls; any other
method tag fails as "unsupported did method" with zero network calls. -/
theorem C8_did_document_failure_kinds {TClient} (env : Env TClient) (did : String) :
    ((didMethodAndIdent did).1 = "plc" → (env.plc did).1 = 404 →
      getDidDocument env did = (.error (.jsError "did not found in directory"), 1)) ∧
    ((didMethodAndIdent did).1 = "plc" → (env.plc did).1 ≠ 404 →
      responseOk (env.plc did).1 = false →
      getDidDocument env did = (.error (.jsError "directory is unreachable"), 1)) ∧
    ((didMethodAndIdent did).1 = "web" →
      didWebIdentOk (didMethodAndIdent did).2 = false →
      getDidDocument env did = (.error (.jsError "invalid identifier"), 0)) ∧
    ((didMethodAndIdent did).1 ≠ "plc" → (didMethodAndIdent did).1 ≠ "web" →
      getDidDocument env did = (.error (.jsError "unsupported did method"), 0)) ∧
    JsErr.jsError "did not found in directory"
      ≠ JsErr.jsError "directory is unreachable" := by
  refine ⟨?_, ?_, ?_, ?_, by decide⟩
  · intro h1 h2
    unfold getDidDocument
    simp [h1, h2]
  · intro h1 h2 h3
    unfold getDidDocument
    simp [h1, h2, h3]
  · intro h1 h2
    unfold getDidDocument
    simp [h1, h2]
  · intro h1 h2
    unfold getDidDocument
    simp [h1, h2]

/-- A directory that answers 404 for every DID. -/
def plc404Env : Env Unit := { baseEnv with plc := fun _ => (404, ⟨"", none⟩) }

/-- The four classifications of C8 exercised on concrete DIDs (`baseEnv`'s
directory and web oracles answer 500). -/
theorem C8_did_document_failure_kinds_witness :
    getDidDocument plc404Env "did:plc:gone"
      = (.error (.jsError "did not found in directory"), 1) ∧
    getDidDocument baseEnv "did:plc:someone"
      = (.error (.jsError "directory is unreachable"), 1) ∧
    getDidDocument baseEnv "did:web:localhost"
      = (.error (.jsError "invalid identifier"), 0) ∧
    getDidDocument baseEnv "did:key:z6MkhaXgBZD"
      = (.error (.jsError "unsupported did method"), 0) :=
  ⟨(C8_did_document_failure_kinds plc404Env "did:plc:gone").1 (by decide) (by decide),
   (C8_did_document_failure_kinds baseEnv "did:plc:someone").2.1
     (by decide) (by decide) (by decide),
   (C8_did_document_failure_kinds baseEnv "did:web:localhost").2.2.1
     (by decide) (by decide),
   (C8_did_document_failure_kinds baseEnv "did:key:z6MkhaXgBZD").2.2.2.1
     (by decide) (by decide)⟩

/-- With `refreshOnly = true`, `oauthAuthenticateOrRefresh` always returns
normally: the session lookup's throw is caught, and the interactive path
(navigation or watchdog throw) is never entered. -/
theorem oauthAuthenticateOrRefresh_refreshOnly_ok {TClient} (env : Env TClient)
    (rs : ResolveState) (handle : String) :
    ∃ a rs2, oauthAuthenticateOrRefresh env rs handle true = (.ok a, rs2) := by
  unfold oauthAuthenticateOrRefresh
  rcases resolveHandleAnonymously env rs handle with ⟨res, rs1, n⟩
  cases res with
  | error e => exact ⟨none, rs1, by simp⟩
  | ok did =>
    cases hs : env.getSession did with
    | error e => exact ⟨none, rs1, by simp [hs]⟩
    | ok s => exact ⟨some (KittyAgent.mk s), rs1, by simp [hs]⟩

/-- When identity resolution succeeds, refresh-only
`authenticateIfNecessary` returns a boolean normally — every
session-refresh failure has been downgraded to `false`, not a throw. -/
theorem authenticateIfNecessary_refreshOnly_returns {TClient} (env : Env TClient)
    (st : ClientState TClient) (handle : String) (r : Resolved)
    (rs : ResolveState) (n : Nat)
    (hres : getDidAndPds env st.resolve handle = (.ok r, rs, n)) :
    ∃ b st', authenticateIfNecessary env st handle true = (.returned b, st') := by
  unfold authenticateIfNecessary
  by_cases hg : shortCircuitGuard st handle = true
  · rw [if_pos hg]
    exact ⟨true, st, rfl⟩
  · rw [if_neg hg, hres]
    obtain ⟨a, rs2, hsh⟩ := oauthAuthenticateOrRefresh_refreshOnly_ok env
      (setAccount { st with resolve := rs } (some ⟨handle, r.did, r.pds⟩)).resolve handle
    cases a with
    | none =>
      simp only [hsh]
      exact ⟨_, _, rfl⟩
    | some agent =>
      simp only [hsh]
      exact ⟨_, _, rfl⟩

/-- C2 (amended): `waitForInitialSession` swallows failures of the silent
session lookup/refresh itself — whenever identity resolution for the
persisted account's handle succeeds, the promise resolves normally no
matter how `getSession` settles.  (Identity-resolution errors, by
contrast, are not caught and reject the promise: see the
counterexample.) -/
theorem C2_refresh_failures_swallowed {TClient} (env : Env TClient)
    (st : ClientState TClient) (a : Account) (r : Resolved)
    (rs : ResolveState) (n : Nat)
    (hacc : st.account = some a)
    (hres : getDidAndPds env st.resolve a.handle = (.ok r, rs, n)) :
    (waitForInitialSession env st).1 = .ok () := by
  unfold waitForInitialSession
  rw [hacc]
  obtain ⟨b, st', hrun⟩ :=
    authenticateIfNecessary_refreshOnly_returns env st a.handle r rs n hres
  simp [hrun]

/-- The account persisted by a prior session in the scenarios below. -/
def accW : Account := ⟨"alice.test", "did:plc:old", "https://old.example.com"⟩

/-- Startup state: persisted account seeded from storage, agent and client
slots empty, caches empty. -/
def stW : ClientState Unit := ⟨⟨[], []⟩, some accW, none, none, some accW⟩

theorem C2_refresh_failures_swallowed_witness :
    stW.account = some accW ∧
    getDidAndPds happyEnv stW.resolve "alice.test" = (.ok resolvedHappy, stHappy, 3) ∧
    happyEnv.getSession "did:plc:alice" = .error (.jsError "no stored session") ∧
    (waitForInitialSession happyEnv stW).1 = .ok () :=
  ⟨rfl, by decide, by decide,
    C2_refresh_failures_swallowed happyEnv stW accW resolvedHappy stHappy 3
      rfl (by decide)⟩

/-- C2 counterexample to the claim as stated: with a persisted account and
both resolution strategies failing, the silent auto-login attempt throws
out of `authenticateIfNecessary` and `waitForInitialSession`'s promise
rejects — the failure is not swallowed. -/
theorem C2_can_reject_counterexample :
    (waitForInitialSession baseEnv stW).1
      = .error (.rejectedResults (.jsError "http down") (.jsError "doh down")) := by
  decide

/-- C10: once resolution has succeeded, `authenticateIfNecessary` has
already written the provisional account `{handle, did, pds}` into the
account slot and durable storage, and neither a `false` return
(refresh-only with no usable session) nor a thrown error rolls it back. -/
theorem C10_provisional_account_persists {TClient} (env : Env TClient)
    (st : ClientState TClient) (handle : String) (refreshOnly : Bool)
    (r : Resolved) (rs : ResolveState) (n : Nat) (outcome : Outcome)
    (st' : ClientState TClient)
    (hres : getDidAndPds env st.resolve handle = (.ok r, rs, n))
    (hrun : authenticateIfNecessary env st handle refreshOnly = (outcome, st'))
    (hfail : outcome = .returned false ∨ ∃ e, outcome = .threw e) :
    st'.account = some ⟨handle, r.did, r.pds⟩ ∧
    st'.storedUser = some ⟨handle, r.did, r.pds⟩ := by
  unfold authenticateIfNecessary at hrun
  split at hrun
  · simp only [Prod.mk.injEq] at hrun
    obtain ⟨ho, -⟩ := hrun
    rcases hfail with hf | ⟨e, hf⟩ <;> rw [hf] at ho <;> simp at ho
  · split at hrun
    · rename_i e0 rs0 n0 heq
      rw [hres] at heq
      simp at heq
    · rename_i r0 rs0 n0 heq
      rw [hres] at heq
      simp only [Prod.mk.injEq, Except.ok.injEq] at heq
      obtain ⟨rfl, rfl, -⟩ := heq
      dsimp only at hrun
      split at hrun
      · rename_i rs2 hsh
        simp only [Prod.mk.injEq] at hrun
        obtain ⟨ho, hst⟩ := hrun
        subst hst
        rcases hfail with hf | ⟨e, hf⟩ <;> rw [hf] at ho <;> simp at ho
      · rename_i e rs2 hsh
        simp only [Prod.mk.injEq] at hrun
        obtain ⟨-, hst⟩ := hrun
        subst hst
        simp [setAccount]
      · rename_i rs2 hsh
        simp only [Prod.mk.injEq] at hrun
        obtain ⟨-, hst⟩ := hrun
        subst hst
        simp [setAccount]
      · rename_i agent rs2 hsh
        simp only [Prod.mk.injEq] at hrun
        obtain ⟨ho, hst⟩ := hrun
        rcases hfail with hf | ⟨e, hf⟩ <;> rw [hf] at ho <;> simp at ho

/-- The provisional account written for `alice.test` by the happy-path
resolution, and the client state after a refresh-only attempt that found
no usable session. -/
def provisionalW : Account := ⟨"alice.test", "did:plc:alice", "https://pds.example.com"⟩

def st10 : ClientState Unit := ⟨stHappy, some provisionalW, none, none, some provisionalW⟩

theorem C10_provisional_account_persists_witness :
    getDidAndPds happyEnv stW.resolve "alice.test"
      = (.ok resolvedHappy, stHappy, 3) ∧
    authenticateIfNecessary happyEnv stW "alice.test" true
      = (.returned false, st10) ∧
    accW ≠ provisionalW ∧
    (st10.account = some provisionalW ∧ st10.storedUser = some provisionalW) :=
  ⟨by decide, by decide, by decide,
    C10_provisional_account_persists happyEnv stW "alice.test" true
      resolvedHappy stHappy 3 (.returned false) st10
      (by decide) (by decide) (Or.inl rfl)⟩

end KittySpec
